import Mathlib

/-!
Verification of the FlashGuard PH arbitration core (`flashguard_app.py`).

This file gives a shallow embedding of the decision logic of the repository:
the criticality classifier `_is_sensor_critical`, the adversarial
cross-validator `nemesis_ai`, the free-text location resolver
`_infer_location_from_text`, the dispatch gate `dispatch_emergency_alert`,
and the two mock evidence tables.  Python dynamic values are modelled by the
inductive `PyVal` (None, bool, int, float, str), with floats modelled as
rationals (the demo constants are all decimal literals, so this is exact).
Fallible Python coercions (`float(...)`, `int(...)`) are modelled as
`Except String` computations so an uncaught Python exception corresponds to
an `.error` result.
-/

deriving instance DecidableEq for Except

namespace FlashGuard

/-- Model of a Python value as it occurs in the evidence records:
`None`, `bool`, `int`, `float` (modelled exactly as a rational) or `str`. -/
inductive PyVal where
  | none
  | vBool (b : Bool)
  | vInt (n : Int)
  | vFloat (q : ℚ)
  | vStr (s : String)
deriving DecidableEq, Repr

/-- Python truthiness of a value (`bool(v)`). -/
def PyVal.truthy : PyVal → Bool
  | .none => false
  | .vBool b => b
  | .vInt n => n != 0
  | .vFloat q => q != 0
  | .vStr s => !s.isEmpty

/-- Python short-circuit `a or b` on values: `a` if truthy, else `b`. -/
def pyOr (a b : PyVal) : PyVal :=
  if a.truthy then a else b

/-- Digits of a numeral, most significant first, to a natural number. -/
def digitsVal (l : List Char) : ℕ :=
  l.foldl (fun acc c => acc * 10 + (c.toNat - 48)) 0

/-- Unsigned decimal literal: `digits`, `digits.digits`, `digits.` or
`.digits` (at least one digit overall).  This models the common forms
accepted by Python `float(str)`; exponents, `inf`/`nan` and underscore
separators are not modelled (no such strings occur in this program). -/
def parseUnsignedFloat (l : List Char) : Option ℚ :=
  let intPart := l.takeWhile Char.isDigit
  let rest := l.dropWhile Char.isDigit
  match rest with
  | [] => if intPart.isEmpty then Option.none else some (digitsVal intPart : ℚ)
  | '.' :: frac =>
    if frac.all Char.isDigit && !(intPart.isEmpty && frac.isEmpty) then
      some ((digitsVal intPart : ℚ) + (digitsVal frac : ℚ) / (10 ^ frac.length : ℚ))
    else Option.none
  | _ => Option.none

/-- Python `float(s)` on a string: strip spaces, optional sign, then an
unsigned decimal literal. -/
def parseFloatStr (s : String) : Option ℚ :=
  let l := s.toList.dropWhile (fun c => c = ' ')
  let l := (l.reverse.dropWhile (fun c => c = ' ')).reverse
  match l with
  | '+' :: rest => parseUnsignedFloat rest
  | '-' :: rest => (parseUnsignedFloat rest).map Neg.neg
  | _ => parseUnsignedFloat l

/-- Python `int(s)` on a string: strip spaces, optional sign, nonempty run
of digits (Python `int` rejects decimal points). -/
def parseIntStr (s : String) : Option ℤ :=
  let l := s.toList.dropWhile (fun c => c = ' ')
  let l := (l.reverse.dropWhile (fun c => c = ' ')).reverse
  let signed : Bool × List Char :=
    match l with
    | '+' :: rest => (false, rest)
    | '-' :: rest => (true, rest)
    | _ => (false, l)
  if signed.2.isEmpty || !signed.2.all Char.isDigit then Option.none
  else some (if signed.1 then -(digitsVal signed.2 : ℤ) else (digitsVal signed.2 : ℤ))

/-- Python `float(v)`: numbers and bools coerce, numeric strings parse,
anything else raises (modelled as `.error`). -/
def pyFloat : PyVal → Except String ℚ
  | .none => .error "float() argument must be a string or a real number, not NoneType"
  | .vBool b => .ok (if b then 1 else 0)
  | .vInt n => .ok (n : ℚ)
  | .vFloat q => .ok q
  | .vStr s =>
    match parseFloatStr s with
    | some q => .ok q
    | Option.none => .error ("could not convert string to float: " ++ s)

/-- Truncation toward zero, as Python `int(float)`. -/
def ratTrunc (q : ℚ) : ℤ :=
  if 0 ≤ q then ⌊q⌋ else ⌈q⌉

/-- Python `int(v)`. -/
def pyInt : PyVal → Except String ℤ
  | .none => .error "int() argument must be a string or a number, not NoneType"
  | .vBool b => .ok (if b then 1 else 0)
  | .vInt n => .ok n
  | .vFloat q => .ok (ratTrunc q)
  | .vStr s =>
    match parseIntStr s with
    | some n => .ok n
    | Option.none => .error ("invalid literal for int() with base 10: " ++ s)

/-- Python `str(v)`.  The rendering of non-string values is approximate
(`float` prints as a fraction), but in the source `str(...)` is only ever
fed to upper-cased comparisons against all-letter tags, which no rendering
of a non-string value can match. -/
def pyStr : PyVal → String
  | .none => "None"
  | .vBool b => if b then "True" else "False"
  | .vInt n => toString n
  | .vFloat q => toString q
  | .vStr s => s

/-- Python `v == s` for a string literal `s` on the right: strings compare
by contents, every other type compares unequal (no exception). -/
def pyEqStr (v : PyVal) (s : String) : Bool :=
  match v with
  | .vStr t => t == s
  | _ => false

/-- `needle` occurs as a contiguous sublist of the haystack
(Python `needle in hay` for strings). -/
def listHasSub (needle : List Char) : List Char → Bool
  | [] => needle.isEmpty
  | c :: rest => needle.isPrefixOf (c :: rest) || listHasSub needle rest

/-- Python substring test `needle in hay`. -/
def strContains (needle hay : String) : Bool :=
  listHasSub needle.toList hay.toList

/-- Python `s.upper()` (character-wise ASCII upper-casing; all tags in
this program are ASCII). -/
def strUpper (s : String) : String :=
  ⟨s.data.map Char.toUpper⟩

/-- Python `s.lower()` (character-wise ASCII lower-casing). -/
def strLower (s : String) : String :=
  ⟨s.data.map Char.toLower⟩

/-!  The decimal constants of the program, as explicitly reduced
rationals (numerator, denominator, proofs), so that all comparisons are
kernel-computable: 18.5 = 37/2, 45.2 = 226/5, 12.1 = 121/10,
10.5 = 21/2, 1.4 = 7/5, 0.1 = 1/10, 0.5 = 1/2. -/

/-- 18.5 -/
def r18_5 : ℚ := ⟨37, 2, by decide, by decide⟩
/-- 45.2 -/
def r45_2 : ℚ := ⟨226, 5, by decide, by decide⟩
/-- 12.1 -/
def r12_1 : ℚ := ⟨121, 10, by decide, by decide⟩
/-- 10.5 -/
def r10_5 : ℚ := ⟨21, 2, by decide, by decide⟩
/-- 1.4 -/
def r1_4 : ℚ := ⟨7, 5, by decide, by decide⟩
/-- 0.1 -/
def r0_1 : ℚ := ⟨1, 10, by decide, by decide⟩
/-- 0.5 -/
def r0_5 : ℚ := ⟨1, 2, by decide, by decide⟩

/-- A Python dict with string keys, as an association list (keys unique in
all the records of this program). -/
abbrev PyDict := List (String × PyVal)

/-- Python `d.get(k, dflt)`. -/
def dictGet (d : PyDict) (k : String) (dflt : PyVal) : PyVal :=
  (List.lookup k d).getD dflt

/-- A table keyed by location (`MOCK_ENVIRONMENTAL_DATA` etc.). -/
abbrev PyMap := List (String × PyDict)

/-- Python `table.get(k)`: `None` (here `Option.none`) when absent. -/
def mapGet (m : PyMap) (k : String) : Option PyDict :=
  List.lookup k m

/-- Python truthiness of an optional dict (`not x` is the negation):
`None` and the empty dict are falsy. -/
def optTruthy : Option PyDict → Bool
  | Option.none => false
  | some d => !d.isEmpty

/-!  `_is_sensor_critical` (flashguard_app.py lines 131-142).

```python
def _is_sensor_critical(sensor_record):
    if not sensor_record:
        return False
    return (
        sensor_record.get("status") == "CRITICAL_SPILL_LEVEL"
        or float(sensor_record.get("river_gauge_meters", 0) or 0)
        >= float(sensor_record.get("critical_threshold_meters", 999999) or 999999)
    )
```
The Python `or` short-circuits: when the status tag matches, the float
conversions are never evaluated. -/

/-- Embedding of `_is_sensor_critical`.  `.error` models an uncaught
Python exception from the `float(...)` coercions. -/
def is_sensor_critical (sensor_record : PyDict) : Except String Bool :=
  if sensor_record.isEmpty then .ok false
  else if pyEqStr (dictGet sensor_record "status" PyVal.none) "CRITICAL_SPILL_LEVEL" then
    .ok true
  else
    match pyFloat (pyOr (dictGet sensor_record "river_gauge_meters" (.vInt 0)) (.vInt 0)) with
    | .error e => .error e
    | .ok g =>
      match pyFloat (pyOr (dictGet sensor_record "critical_threshold_meters" (.vInt 999999)) (.vInt 999999)) with
      | .error e => .error e
      | .ok t => .ok (decide (t ≤ g))

/-!  The mock evidence tables (flashguard_app.py lines 38-96).
Decimal literals use the reduced rational constants above. -/

/-- `MOCK_ENVIRONMENTAL_DATA["Bulacan"]`. -/
def bulacanRecord : PyDict :=
  [("timestamp", .vStr "2026-02-18T20:30:00Z"),
   ("river_basin", .vStr "Angat River System"),
   ("river_gauge_meters", .vFloat r18_5),
   ("critical_threshold_meters", .vFloat 15),
   ("rainfall_mm_per_hr", .vFloat r45_2),
   ("satellite_soil_saturation", .vStr "94%"),
   ("satellite_cloud_cover", .vStr "Heavy Nimbus"),
   ("status", .vStr "CRITICAL_SPILL_LEVEL"),
   ("data_source", .vStr "MOCK_OFFICIAL_SENSOR")]

/-- `MOCK_ENVIRONMENTAL_DATA["Marikina"]`. -/
def marikinaRecord : PyDict :=
  [("timestamp", .vStr "2026-02-18T20:30:00Z"),
   ("river_basin", .vStr "Marikina River Basin"),
   ("river_gauge_meters", .vFloat r12_1),
   ("critical_threshold_meters", .vFloat 15),
   ("rainfall_mm_per_hr", .vFloat r10_5),
   ("satellite_soil_saturation", .vStr "60%"),
   ("satellite_cloud_cover", .vStr "Moderate"),
   ("status", .vStr "NORMAL"),
   ("data_source", .vStr "MOCK_OFFICIAL_SENSOR")]

/-- `ADVERSARIAL_MOCK_DATA["Bulacan"]`. -/
def bulacanAdv : PyDict :=
  [("timestamp", .vStr "2026-02-18T20:31:00Z"),
   ("alt_source", .vStr "Citizen Radio + LGU Drone Recon"),
   ("alt_flood_status", .vStr "SEVERE_FLOOD_WARNING"),
   ("estimated_inundation_meters", .vFloat r1_4),
   ("rescue_requests_count", .vInt 7),
   ("confidence", .vStr "HIGH"),
   ("data_source", .vStr "MOCK_ADVERSARIAL")]

/-- `ADVERSARIAL_MOCK_DATA["Marikina"]`. -/
def marikinaAdv : PyDict :=
  [("timestamp", .vStr "2026-02-18T20:31:00Z"),
   ("alt_source", .vStr "Citizen Radio + LGU Drone Recon"),
   ("alt_flood_status", .vStr "LOW_RISK"),
   ("estimated_inundation_meters", .vFloat r0_1),
   ("rescue_requests_count", .vInt 0),
   ("confidence", .vStr "MEDIUM"),
   ("data_source", .vStr "MOCK_ADVERSARIAL")]

/-- `MOCK_ENVIRONMENTAL_DATA`. -/
def MOCK_ENVIRONMENTAL_DATA : PyMap :=
  [("Bulacan", bulacanRecord), ("Marikina", marikinaRecord)]

/-- `ADVERSARIAL_MOCK_DATA`. -/
def ADVERSARIAL_MOCK_DATA : PyMap :=
  [("Bulacan", bulacanAdv), ("Marikina", marikinaAdv)]

/-- The keys of `LOCATION_COORDS` (the coordinate values feed only the
out-of-scope Open-Meteo fetch; only the keys enter the decision logic,
through `_infer_location_from_text`). -/
def LOCATION_COORDS_KEYS : List String :=
  ["Bulacan", "Marikina"]

/-!  `nemesis_ai` (flashguard_app.py lines 274-335).

```python
def nemesis_ai(location_name):
    primary = MOCK_ENVIRONMENTAL_DATA.get(location_name)
    adversarial = ADVERSARIAL_MOCK_DATA.get(location_name)
    if not primary and not adversarial:
        return json.dumps({... "decision": "BLOCK",
                           "reason": "No reliable data in either source." ...})
    primary_is_critical = False
    if primary:
        primary_is_critical = (
            float(primary.get("river_gauge_meters", 0) or 0)
            >= float(primary.get("critical_threshold_meters", 999) or 999)
            or "CRITICAL" in str(primary.get("status", "")).upper())
    adversarial_is_critical = False
    if adversarial:
        adversarial_is_critical = (
            str(adversarial.get("alt_flood_status", "")).upper()
                in {"SEVERE_FLOOD_WARNING", "CRITICAL"}
            or float(adversarial.get("estimated_inundation_meters", 0) or 0) >= 0.5
            or int(adversarial.get("rescue_requests_count", 0) or 0) >= 2)
    if primary_is_critical and adversarial_is_critical:
        decision, reason = "APPROVE", "Both primary and adversarial sources indicate flood danger."
    elif primary_is_critical != adversarial_is_critical:
        decision, reason = "BLOCK", "Sources conflict. Escalate for human verification before dispatch."
    else:
        decision, reason = "BLOCK", "Both sources indicate low risk for immediate auto-dispatch."
    return json.dumps({... decision, reason, primary_is_critical, adversarial_is_critical ...})
```

The JSON round-trip through `json.dumps`/`json.loads` is the identity on
this data, so the verdict is modelled directly as a structure.  The early
"no data" return carries no sub-verdict booleans, modelled as `sub = none`.
-/

/-- The verdict object produced by `nemesis_ai`: decision, reason, and the
two boolean sub-verdicts (absent on the early "no data" return). -/
structure NemesisVerdict where
  decision : String
  reason : String
  sub : Option (Bool × Bool)
deriving DecidableEq, Repr

/-- The local `primary_is_critical` computation of `nemesis_ai`:
`False` when the primary channel is `None` or an empty record, otherwise
the gauge/threshold comparison (threshold sentinel 999) or a substring
test for `"CRITICAL"` on the upper-cased status. -/
def nem_primary_is_critical (primary : Option PyDict) : Except String Bool :=
  match primary with
  | Option.none => .ok false
  | some d =>
    if d.isEmpty then .ok false
    else
      match pyFloat (pyOr (dictGet d "river_gauge_meters" (.vInt 0)) (.vInt 0)) with
      | .error e => .error e
      | .ok g =>
        match pyFloat (pyOr (dictGet d "critical_threshold_meters" (.vInt 999)) (.vInt 999)) with
        | .error e => .error e
        | .ok t =>
          if t ≤ g then .ok true
          else .ok (strContains "CRITICAL" (strUpper (pyStr (dictGet d "status" (.vStr "")))))

/-- The local `adversarial_is_critical` computation of `nemesis_ai`:
`False` when the secondary channel is `None` or an empty record, otherwise
the upper-cased alternate status tag in {SEVERE_FLOOD_WARNING, CRITICAL},
or inundation depth >= 0.5, or rescue-request count >= 2 (Python `or`
short-circuits left to right). -/
def nem_adversarial_is_critical (adversarial : Option PyDict) : Except String Bool :=
  match adversarial with
  | Option.none => .ok false
  | some d =>
    if d.isEmpty then .ok false
    else
      let s := strUpper (pyStr (dictGet d "alt_flood_status" (.vStr "")))
      if s = "SEVERE_FLOOD_WARNING" || s = "CRITICAL" then .ok true
      else
        match pyFloat (pyOr (dictGet d "estimated_inundation_meters" (.vInt 0)) (.vInt 0)) with
        | .error e => .error e
        | .ok m =>
          if r0_5 ≤ m then .ok true
          else
            match pyInt (pyOr (dictGet d "rescue_requests_count" (.vInt 0)) (.vInt 0)) with
            | .error e => .error e
            | .ok r => .ok (decide ((2 : ℤ) ≤ r))

/-- Core of `nemesis_ai`, over the two looked-up channel records. -/
def nemesis_core (primary adversarial : Option PyDict) : Except String NemesisVerdict :=
  if !optTruthy primary && !optTruthy adversarial then
    .ok ⟨"BLOCK", "No reliable data in either source.", Option.none⟩
  else
    match nem_primary_is_critical primary with
    | .error e => .error e
    | .ok p =>
      match nem_adversarial_is_critical adversarial with
      | .error e => .error e
      | .ok a =>
        if p && a then
          .ok ⟨"APPROVE", "Both primary and adversarial sources indicate flood danger.", some (p, a)⟩
        else if p != a then
          .ok ⟨"BLOCK", "Sources conflict. Escalate for human verification before dispatch.", some (p, a)⟩
        else
          .ok ⟨"BLOCK", "Both sources indicate low risk for immediate auto-dispatch.", some (p, a)⟩

/-- `nemesis_ai`, parameterized by the two evidence tables it reads
(the source reads the module globals `MOCK_ENVIRONMENTAL_DATA` and
`ADVERSARIAL_MOCK_DATA`). -/
def nemesis_ai (envTbl advTbl : PyMap) (location_name : String) : Except String NemesisVerdict :=
  nemesis_core (mapGet envTbl location_name) (mapGet advTbl location_name)

/-!  `_infer_location_from_text` (flashguard_app.py lines 107-128).

```python
def _infer_location_from_text(input_text):
    if not input_text:
        return input_text
    text = input_text.lower()
    for known_location in MOCK_ENVIRONMENTAL_DATA.keys():
        if known_location.lower() in text:
            return known_location
    for known_location in ADVERSARIAL_MOCK_DATA.keys():
        if known_location.lower() in text:
            return known_location
    for known_location in LOCATION_COORDS.keys():
        if known_location.lower() in text:
            return known_location
    return input_text
```
The three sequential loops are one ordered search over the concatenation
of the three key lists. -/

/-- First key of `keys` whose lower-casing is a substring of the
lower-cased input; the input itself when none matches or the input is
empty. -/
def infer_from (keys : List String) (input_text : String) : String :=
  if input_text.isEmpty then input_text
  else
    match keys.find? (fun k => strContains (strLower k) (strLower input_text)) with
    | some k => k
    | Option.none => input_text

/-- The key list `_infer_location_from_text` iterates over: the keys of
`MOCK_ENVIRONMENTAL_DATA`, then of `ADVERSARIAL_MOCK_DATA`, then of
`LOCATION_COORDS`. -/
def inferKeys (envTbl advTbl : PyMap) (coordKeys : List String) : List String :=
  envTbl.map Prod.fst ++ advTbl.map Prod.fst ++ coordKeys

/-- `_infer_location_from_text`, parameterized by the tables whose keys
the source iterates. -/
def infer_location (envTbl advTbl : PyMap) (coordKeys : List String) (input_text : String) : String :=
  infer_from (inferKeys envTbl advTbl coordKeys) input_text

/-!  `dispatch_emergency_alert` (flashguard_app.py lines 469-518).

```python
def dispatch_emergency_alert(area_name, action_plan):
    location_key = _infer_location_from_text(area_name)
    sensor_record = MOCK_ENVIRONMENTAL_DATA.get(location_key, {})
    if not _is_sensor_critical(sensor_record):
        return _standard_tool_response(ok=False,
            payload={"area": location_key,
                     "reason": "Dispatch blocked: sensors are not critical.",
                     "sensor_status": sensor_record.get("status", "UNKNOWN")},
            message="SAFETY BLOCK: No evacuation alert sent.")
    adversarial_verdict = json.loads(nemesis_ai(location_key))
    if adversarial_verdict.get("decision") != "APPROVE":
        return _standard_tool_response(ok=False,
            payload={"area": location_key,
                     "reason": adversarial_verdict.get("reason", "Nemesis AI blocked dispatch."),
                     "nemesis_decision": adversarial_verdict.get("decision", "BLOCK")},
            message="SAFETY BLOCK: Nemesis AI blocked auto-dispatch.")
    return _standard_tool_response(ok=True,
        payload={"area": location_key, "action_plan": action_plan,
                 "dispatch": "Evacuation SMS broadcasted + resources coordinated (mock).",
                 "nemesis_decision": adversarial_verdict.get("decision", "APPROVE")},
        message="SUCCESS: Evacuation alert dispatched.")
```
The nemesis verdict always carries `"reason"` and `"decision"` keys, so
the `.get` defaults never fire; they are modelled by direct field access.
-/

/-- The payload of the `_standard_tool_response` envelope returned by
`dispatch_emergency_alert`, one constructor per return site. -/
inductive DispatchPayload where
  | sensorBlock (area : String) (reason : String) (sensor_status : PyVal)
  | nemesisBlock (area : String) (reason : String) (nemesis_decision : String)
  | dispatched (area : String) (action_plan : String) (dispatch : String) (nemesis_decision : String)
deriving DecidableEq, Repr

/-- The `area` field present in every payload variant. -/
def DispatchPayload.area : DispatchPayload → String
  | .sensorBlock a _ _ => a
  | .nemesisBlock a _ _ => a
  | .dispatched a _ _ _ => a

/-- The `_standard_tool_response` JSON envelope of the dispatch tool. -/
structure DispatchResponse where
  ok : Bool
  message : String
  payload : DispatchPayload
deriving DecidableEq, Repr

/-- `dispatch_emergency_alert` with the cross-validator as an explicit
function argument (the source calls the module-level `nemesis_ai`); this
lets the short-circuit property be stated as independence from the
arbiter.  `keys` is the key list of `_infer_location_from_text`. -/
def dispatch_core (envTbl : PyMap) (keys : List String)
    (arbiter : String → Except String NemesisVerdict)
    (area_name action_plan : String) : Except String DispatchResponse :=
  let location_key := infer_from keys area_name
  let sensor_record := (mapGet envTbl location_key).getD []
  match is_sensor_critical sensor_record with
  | .error e => .error e
  | .ok crit =>
    if !crit then
      .ok ⟨false, "SAFETY BLOCK: No evacuation alert sent.",
           .sensorBlock location_key "Dispatch blocked: sensors are not critical."
             (dictGet sensor_record "status" (.vStr "UNKNOWN"))⟩
    else
      match arbiter location_key with
      | .error e => .error e
      | .ok v =>
        if v.decision ≠ "APPROVE" then
          .ok ⟨false, "SAFETY BLOCK: Nemesis AI blocked auto-dispatch.",
               .nemesisBlock location_key v.reason v.decision⟩
        else
          .ok ⟨true, "SUCCESS: Evacuation alert dispatched.",
               .dispatched location_key action_plan
                 "Evacuation SMS broadcasted + resources coordinated (mock)." v.decision⟩

/-- `dispatch_emergency_alert`, parameterized by the tables the source
reads from module globals. -/
def dispatch_emergency_alert (envTbl advTbl : PyMap) (coordKeys : List String)
    (area_name action_plan : String) : Except String DispatchResponse :=
  dispatch_core envTbl (inferKeys envTbl advTbl coordKeys) (nemesis_ai envTbl advTbl)
    area_name action_plan

/-!  Shared helper lemmas. -/

/-- A successful key lookup determines `d.get(k, dflt)` whatever the
default. -/
theorem dictGet_of_lookup {d : PyDict} {k : String} {v : PyVal}
    (h : List.lookup k d = some v) (dflt : PyVal) : dictGet d k dflt = v := by
  simp [dictGet, h]

/-- An absent key makes `d.get(k, dflt)` return the default. -/
theorem dictGet_of_lookup_none {d : PyDict} {k : String}
    (h : List.lookup k d = Option.none) (dflt : PyVal) : dictGet d k dflt = dflt := by
  simp [dictGet, h]

/-- A dict with a successful lookup is nonempty. -/
theorem isEmpty_false_of_lookup {d : PyDict} {k : String} {v : PyVal}
    (h : List.lookup k d = some v) : d.isEmpty = false := by
  cases d with
  | nil => simp [List.lookup] at h
  | cons a l => rfl

/-- `float(q or 0)` recovers a float field exactly: a zero float is falsy
and falls back to the default `0`, which coerces to the same value. -/
theorem pyFloat_pyOr_vFloat_zero (q : ℚ) :
    pyFloat (pyOr (.vFloat q) (.vInt 0)) = .ok q := by
  by_cases h : q = 0 <;> simp [pyOr, PyVal.truthy, pyFloat, h]

/-- `float(q or d)` keeps a nonzero float field. -/
theorem pyFloat_pyOr_vFloat_ne {q : ℚ} (h : q ≠ 0) (d : PyVal) :
    pyFloat (pyOr (.vFloat q) d) = .ok q := by
  simp [pyOr, PyVal.truthy, pyFloat, h]

/-- `int(n or 0)` recovers an int field exactly. -/
theorem pyInt_pyOr_vInt_zero (n : ℤ) :
    pyInt (pyOr (.vInt n) (.vInt 0)) = .ok n := by
  by_cases h : n = 0 <;> simp [pyOr, PyVal.truthy, pyInt, h]

/-!  Claim theorems. -/

/-- C4: the Criticality Classifier `_is_sensor_critical` implements the
reference rule.  For a record carrying a string status, a float gauge `g`
and a float threshold `t` (positive, per the data-model invariant
"threshold is always > 0"), the verdict is exactly
`status = "CRITICAL_SPILL_LEVEL" ∨ g ≥ t`; in particular the bound is
inclusive (`g = t` with an empty status tag is critical), and an absent
(empty) record classifies as not critical. -/
theorem c4_classifier_reference_rule :
    (∀ (d : PyDict) (s : String) (g t : ℚ),
       List.lookup "status" d = some (.vStr s) →
       List.lookup "river_gauge_meters" d = some (.vFloat g) →
       List.lookup "critical_threshold_meters" d = some (.vFloat t) →
       0 < t →
       is_sensor_critical d = .ok (decide (s = "CRITICAL_SPILL_LEVEL" ∨ t ≤ g)))
    ∧ (∀ (d : PyDict) (t : ℚ),
       List.lookup "status" d = some (.vStr "") →
       List.lookup "river_gauge_meters" d = some (.vFloat t) →
       List.lookup "critical_threshold_meters" d = some (.vFloat t) →
       0 < t →
       is_sensor_critical d = .ok true)
    ∧ (∀ d : PyDict, d.isEmpty = true → is_sensor_critical d = .ok false) := by
  have main : ∀ (d : PyDict) (s : String) (g t : ℚ),
      List.lookup "status" d = some (.vStr s) →
      List.lookup "river_gauge_meters" d = some (.vFloat g) →
      List.lookup "critical_threshold_meters" d = some (.vFloat t) →
      0 < t →
      is_sensor_critical d = .ok (decide (s = "CRITICAL_SPILL_LEVEL" ∨ t ≤ g)) := by
    intro d s g t hs hg ht hlt
    have hd : d.isEmpty = false := isEmpty_false_of_lookup hs
    have ht0 : t ≠ 0 := ne_of_gt hlt
    by_cases hcs : s = "CRITICAL_SPILL_LEVEL"
    · simp [is_sensor_critical, hd, dictGet_of_lookup hs, pyEqStr, hcs]
    · simp [is_sensor_critical, hd, dictGet_of_lookup hs, dictGet_of_lookup hg,
        dictGet_of_lookup ht, pyEqStr, hcs, pyFloat_pyOr_vFloat_zero,
        pyFloat_pyOr_vFloat_ne ht0]
  refine ⟨main, ?_, ?_⟩
  · intro d t hs hg ht hlt
    have h := main d "" t t hs hg ht hlt
    simpa using h
  · intro d hd
    simp [is_sensor_critical, hd]

/-- C4 witness: a record sitting exactly at the threshold with an empty
status tag is critical. -/
theorem c4_witness :
    is_sensor_critical
      [("status", .vStr ""), ("river_gauge_meters", .vFloat 15),
       ("critical_threshold_meters", .vFloat 15)] = .ok true := by
  exact c4_classifier_reference_rule.2.1 _ 15 rfl rfl rfl (by decide)

/-- C5 counterexample: the claim says the arbiter's `primary_is_critical`
equals `_is_sensor_critical` on every record.  The record with status
`"CRITICAL"`, gauge 10 and threshold 15 refutes it: the classifier tests
equality with `"CRITICAL_SPILL_LEVEL"` (false here) while the arbiter
tests `"CRITICAL" in status.upper()` (true here). -/
theorem c5_counterexample :
    is_sensor_critical
      [("status", .vStr "CRITICAL"), ("river_gauge_meters", .vFloat 10),
       ("critical_threshold_meters", .vFloat 15)] = .ok false
    ∧ nem_primary_is_critical
      (some [("status", .vStr "CRITICAL"), ("river_gauge_meters", .vFloat 10),
             ("critical_threshold_meters", .vFloat 15)]) = .ok true := by
  constructor <;> decide

/-- C5 amended: the arbiter's `primary_is_critical` and the classifier
`_is_sensor_critical` agree on a record exactly under two side conditions
the claim omits: the threshold field holds a nonzero float (so the two
different unset-threshold sentinels, 999 and 999999, never fire), and the
substring test `"CRITICAL" in status.upper()` coincides with the equality
test `status == "CRITICAL_SPILL_LEVEL"` on that record's status.  Both
evaluate an absent channel/empty record as not critical. -/
theorem c5_amended_primary_checks_agree :
    (∀ (d : PyDict) (s : String) (g t : ℚ),
       List.lookup "status" d = some (.vStr s) →
       List.lookup "river_gauge_meters" d = some (.vFloat g) →
       List.lookup "critical_threshold_meters" d = some (.vFloat t) →
       t ≠ 0 →
       strContains "CRITICAL" (strUpper s) = (s == "CRITICAL_SPILL_LEVEL") →
       nem_primary_is_critical (some d) = is_sensor_critical d)
    ∧ nem_primary_is_critical Option.none = .ok false
    ∧ (∀ d : PyDict, d.isEmpty = true →
       nem_primary_is_critical (some d) = is_sensor_critical d) := by
  refine ⟨?_, by decide, ?_⟩
  · intro d s g t hs hg ht ht0 hsub
    have hd : d.isEmpty = false := isEmpty_false_of_lookup hs
    have hclass : is_sensor_critical d =
        .ok ((s == "CRITICAL_SPILL_LEVEL") || decide (t ≤ g)) := by
      by_cases hcs : s = "CRITICAL_SPILL_LEVEL"
      · simp [is_sensor_critical, hd, dictGet_of_lookup hs, pyEqStr, hcs]
      · simp [is_sensor_critical, hd, dictGet_of_lookup hs, dictGet_of_lookup hg,
          dictGet_of_lookup ht, pyEqStr, hcs, pyFloat_pyOr_vFloat_zero,
          pyFloat_pyOr_vFloat_ne ht0]
    have hnem : nem_primary_is_critical (some d) =
        .ok ((s == "CRITICAL_SPILL_LEVEL") || decide (t ≤ g)) := by
      by_cases hle : t ≤ g
      · simp [nem_primary_is_critical, hd, dictGet_of_lookup hg,
          dictGet_of_lookup ht, pyFloat_pyOr_vFloat_zero,
          pyFloat_pyOr_vFloat_ne ht0, hle]
      · simp [nem_primary_is_critical, hd, dictGet_of_lookup hs,
          dictGet_of_lookup hg, dictGet_of_lookup ht, pyFloat_pyOr_vFloat_zero,
          pyFloat_pyOr_vFloat_ne ht0, hle, pyStr, hsub]
    rw [hclass, hnem]
  · intro d hd
    have hnil : d = [] := by
      cases d with
      | nil => rfl
      | cons a l => simp [List.isEmpty] at hd
    subst hnil
    decide

/-- C5 witness: on the Marikina record (nonzero threshold, status
`"NORMAL"` on which the substring and equality tests coincide) the two
primary-criticality checks agree. -/
theorem c5_witness :
    nem_primary_is_critical (some marikinaRecord) = is_sensor_critical marikinaRecord :=
  c5_amended_primary_checks_agree.1 marikinaRecord "NORMAL" r12_1 15
    rfl rfl rfl (by decide) (by decide)

/-- C8 counterexample: the claim says an unset threshold can never be
exceeded, whatever the gauge.  A record without a threshold field but
with gauge 999999 is classified critical by `_is_sensor_critical`
(sentinel 999999 reached), and one with gauge 999 is judged critical by
the arbiter's primary check (sentinel 999). -/
theorem c8_counterexample :
    List.lookup "critical_threshold_meters"
      ([("status", .vStr ""), ("river_gauge_meters", .vFloat 999999)] : PyDict) = Option.none
    ∧ is_sensor_critical
      [("status", .vStr ""), ("river_gauge_meters", .vFloat 999999)] = .ok true
    ∧ nem_primary_is_critical
      (some [("status", .vStr ""), ("river_gauge_meters", .vFloat 999)]) = .ok true := by
  refine ⟨by decide, by decide, by decide⟩

/-- C8 amended: an unset threshold field defaults to a large but finite
sentinel — 999999 in the Criticality Classifier and 999 in the arbiter's
primary check — so the gauge comparison cannot make the record critical
while the gauge is below the respective sentinel, but a gauge at or above
the sentinel still triggers criticality (the sentinel is not +∞). -/
theorem c8_amended_threshold_sentinels :
    ∀ (d : PyDict) (g : ℚ) (s : String),
      List.lookup "critical_threshold_meters" d = Option.none →
      List.lookup "river_gauge_meters" d = some (.vFloat g) →
      List.lookup "status" d = some (.vStr s) →
      ((g < 999999 → is_sensor_critical d = .ok (s == "CRITICAL_SPILL_LEVEL"))
       ∧ ((999999 : ℚ) ≤ g → is_sensor_critical d = .ok true)
       ∧ (g < 999 → nem_primary_is_critical (some d) =
            .ok (strContains "CRITICAL" (strUpper s)))
       ∧ ((999 : ℚ) ≤ g → nem_primary_is_critical (some d) = .ok true)) := by
  intro d g s ht hg hs
  have hd : d.isEmpty = false := isEmpty_false_of_lookup hs
  have hsent : pyFloat (pyOr (dictGet d "critical_threshold_meters" (.vInt 999999))
      (.vInt 999999)) = .ok ((999999 : ℤ) : ℚ) := by
    rw [dictGet_of_lookup_none ht]
    simp [pyOr, PyVal.truthy, pyFloat]
  have hsent9 : pyFloat (pyOr (dictGet d "critical_threshold_meters" (.vInt 999))
      (.vInt 999)) = .ok ((999 : ℤ) : ℚ) := by
    rw [dictGet_of_lookup_none ht]
    simp [pyOr, PyVal.truthy, pyFloat]
  have hcast : ((999999 : ℤ) : ℚ) = (999999 : ℚ) := by norm_num
  have hcast9 : ((999 : ℤ) : ℚ) = (999 : ℚ) := by norm_num
  refine ⟨?_, ?_, ?_, ?_⟩
  · intro hlt
    have hnle : ¬ ((999999 : ℚ) ≤ g) := not_le.mpr hlt
    by_cases hcs : s = "CRITICAL_SPILL_LEVEL"
    · simp [is_sensor_critical, hd, dictGet_of_lookup hs, pyEqStr, hcs]
    · simp [is_sensor_critical, hd, dictGet_of_lookup hs, dictGet_of_lookup hg,
        pyEqStr, hcs, pyFloat_pyOr_vFloat_zero, hsent, hcast, hnle]
  · intro hge
    by_cases hcs : s = "CRITICAL_SPILL_LEVEL"
    · simp [is_sensor_critical, hd, dictGet_of_lookup hs, pyEqStr, hcs]
    · simp [is_sensor_critical, hd, dictGet_of_lookup hs, dictGet_of_lookup hg,
        pyEqStr, hcs, pyFloat_pyOr_vFloat_zero, hsent, hcast, hge]
  · intro hlt
    have hnle : ¬ ((999 : ℚ) ≤ g) := not_le.mpr hlt
    simp [nem_primary_is_critical, hd, dictGet_of_lookup hs, dictGet_of_lookup hg,
      pyFloat_pyOr_vFloat_zero, hsent9, hcast9, hnle, pyStr]
  · intro hge
    simp [nem_primary_is_critical, hd, dictGet_of_lookup hg,
      pyFloat_pyOr_vFloat_zero, hsent9, hcast9, hge]

/-- C8 witness: a thresholdless record with gauge 500 stays non-critical
under both checks, since 500 is below both sentinels (999 and 999999). -/
theorem c8_witness :
    is_sensor_critical [("status", .vStr "NORMAL"), ("river_gauge_meters", .vFloat 500)]
      = .ok false
    ∧ nem_primary_is_critical
        (some [("status", .vStr "NORMAL"), ("river_gauge_meters", .vFloat 500)])
      = .ok false := by
  have h := c8_amended_threshold_sentinels
    [("status", .vStr "NORMAL"), ("river_gauge_meters", .vFloat 500)] 500 "NORMAL"
    rfl rfl rfl
  refine ⟨?_, ?_⟩
  · rw [h.1 (by norm_num)]; decide
  · rw [h.2.2.1 (by norm_num)]; decide

/-- A computation with `isOk` set yields some value. -/
theorem exists_ok_of_isOk {α : Type} {x : Except String α} (h : x.isOk = true) :
    ∃ a, x = .ok a := by
  cases x with
  | error e => simp [Except.isOk, Except.toBool] at h
  | ok a => exact ⟨a, rfl⟩

/-- C6 counterexample: the claim says classification and arbitration are
total on records "with missing or malformed fields of any shape or
value".  A record whose gauge field holds the (truthy, non-numeric)
string `"N/A"` makes both `_is_sensor_critical` and `nemesis_ai` raise
from the `float(...)` coercion instead of returning a verdict. -/
theorem c6_counterexample :
    is_sensor_critical [("river_gauge_meters", .vStr "N/A")]
      = .error "could not convert string to float: N/A"
    ∧ nemesis_core (some [("river_gauge_meters", .vStr "N/A")]) Option.none
      = .error "could not convert string to float: N/A" := by
  constructor <;> decide

/-- C6 amended: classification and arbitration return a verdict — and in
particular never raise — for every input whose numeric fields, after the
Python `x or default` fallback, coerce (absent, `None`, falsy, numeric,
boolean or numeric-string values all do); a truthy non-numeric value in a
numeric field raises a coercion error instead, which is the only failure
mode.  Absent and empty records are always handled. -/
theorem c6_amended_totality :
    (∀ d : PyDict,
       (pyFloat (pyOr (dictGet d "river_gauge_meters" (.vInt 0)) (.vInt 0))).isOk = true →
       (pyFloat (pyOr (dictGet d "critical_threshold_meters" (.vInt 999999))
         (.vInt 999999))).isOk = true →
       ∃ b, is_sensor_critical d = .ok b)
    ∧ (∀ pr ad : Option PyDict,
       (∀ d, pr = some d →
         (pyFloat (pyOr (dictGet d "river_gauge_meters" (.vInt 0)) (.vInt 0))).isOk = true ∧
         (pyFloat (pyOr (dictGet d "critical_threshold_meters" (.vInt 999))
           (.vInt 999))).isOk = true) →
       (∀ d, ad = some d →
         (pyFloat (pyOr (dictGet d "estimated_inundation_meters" (.vInt 0))
           (.vInt 0))).isOk = true ∧
         (pyInt (pyOr (dictGet d "rescue_requests_count" (.vInt 0)) (.vInt 0))).isOk = true) →
       ∃ v, nemesis_core pr ad = .ok v) := by
  have classifier : ∀ d : PyDict,
      (pyFloat (pyOr (dictGet d "river_gauge_meters" (.vInt 0)) (.vInt 0))).isOk = true →
      (pyFloat (pyOr (dictGet d "critical_threshold_meters" (.vInt 999999))
        (.vInt 999999))).isOk = true →
      ∃ b, is_sensor_critical d = .ok b := by
    intro d hg ht
    obtain ⟨g, hg⟩ := exists_ok_of_isOk hg
    obtain ⟨t, ht⟩ := exists_ok_of_isOk ht
    by_cases hd : d.isEmpty
    · exact ⟨false, by simp [is_sensor_critical, hd]⟩
    · by_cases hcs : pyEqStr (dictGet d "status" PyVal.none) "CRITICAL_SPILL_LEVEL"
      · exact ⟨true, by simp [is_sensor_critical, hd, hcs]⟩
      · exact ⟨decide (t ≤ g), by simp [is_sensor_critical, hd, hcs, hg, ht]⟩
  have primary : ∀ pr : Option PyDict,
      (∀ d, pr = some d →
        (pyFloat (pyOr (dictGet d "river_gauge_meters" (.vInt 0)) (.vInt 0))).isOk = true ∧
        (pyFloat (pyOr (dictGet d "critical_threshold_meters" (.vInt 999))
          (.vInt 999))).isOk = true) →
      ∃ b, nem_primary_is_critical pr = .ok b := by
    intro pr hpr
    cases pr with
    | none => exact ⟨false, rfl⟩
    | some d =>
      obtain ⟨hg, ht⟩ := hpr d rfl
      obtain ⟨g, hg⟩ := exists_ok_of_isOk hg
      obtain ⟨t, ht⟩ := exists_ok_of_isOk ht
      by_cases hd : d.isEmpty
      · exact ⟨false, by simp [nem_primary_is_critical, hd]⟩
      · by_cases hle : t ≤ g
        · exact ⟨true, by simp [nem_primary_is_critical, hd, hg, ht, hle]⟩
        · refine ⟨strContains "CRITICAL" (strUpper (pyStr (dictGet d "status" (.vStr "")))),
            by simp [nem_primary_is_critical, hd, hg, ht, hle]⟩
  have secondary : ∀ ad : Option PyDict,
      (∀ d, ad = some d →
        (pyFloat (pyOr (dictGet d "estimated_inundation_meters" (.vInt 0))
          (.vInt 0))).isOk = true ∧
        (pyInt (pyOr (dictGet d "rescue_requests_count" (.vInt 0)) (.vInt 0))).isOk = true) →
      ∃ b, nem_adversarial_is_critical ad = .ok b := by
    intro ad had
    cases ad with
    | none => exact ⟨false, rfl⟩
    | some d =>
      obtain ⟨hm, hr⟩ := had d rfl
      obtain ⟨m, hm⟩ := exists_ok_of_isOk hm
      obtain ⟨r, hr⟩ := exists_ok_of_isOk hr
      by_cases hd : d.isEmpty
      · exact ⟨false, by simp [nem_adversarial_is_critical, hd]⟩
      · by_cases hs : (strUpper (pyStr (dictGet d "alt_flood_status" (.vStr ""))))
            = "SEVERE_FLOOD_WARNING"
          ∨ (strUpper (pyStr (dictGet d "alt_flood_status" (.vStr "")))) = "CRITICAL"
        · refine ⟨true, ?_⟩
          rcases hs with hs | hs <;> simp [nem_adversarial_is_critical, hd, hs]
        · push_neg at hs
          by_cases hle : r0_5 ≤ m
          · exact ⟨true, by simp [nem_adversarial_is_critical, hd, hs.1, hs.2, hm, hle]⟩
          · exact ⟨decide ((2 : ℤ) ≤ r),
              by simp [nem_adversarial_is_critical, hd, hs.1, hs.2, hm, hr, hle]⟩
  refine ⟨classifier, ?_⟩
  intro pr ad hpr had
  obtain ⟨p, hp⟩ := primary pr hpr
  obtain ⟨a, ha⟩ := secondary ad had
  by_cases hdata : (!optTruthy pr && !optTruthy ad) = true
  · exact ⟨⟨"BLOCK", "No reliable data in either source.", Option.none⟩,
      by simp [nemesis_core, hdata]⟩
  · by_cases hpa : (p && a) = true
    · exact ⟨⟨"APPROVE", "Both primary and adversarial sources indicate flood danger.",
        some (p, a)⟩, by simp [nemesis_core, hdata, hp, ha, hpa]⟩
    · by_cases hne : (p != a) = true
      · exact ⟨⟨"BLOCK", "Sources conflict. Escalate for human verification before dispatch.",
          some (p, a)⟩, by simp [nemesis_core, hdata, hp, ha, hpa, hne]⟩
      · exact ⟨⟨"BLOCK", "Both sources indicate low risk for immediate auto-dispatch.",
          some (p, a)⟩, by simp [nemesis_core, hdata, hp, ha, hpa, hne]⟩

/-- C6 witness: a record with a `None` threshold, a missing gauge and a
numeric-string rainfall is classified (not critical) without raising, and
the arbiter returns a verdict on it paired with an empty secondary
channel. -/
theorem c6_witness :
    (∃ b, is_sensor_critical
        [("critical_threshold_meters", PyVal.none), ("rainfall_mm_per_hr", .vStr "45.2")]
        = .ok b)
    ∧ (∃ v, nemesis_core
        (some [("critical_threshold_meters", PyVal.none), ("rainfall_mm_per_hr", .vStr "45.2")])
        (some []) = .ok v) := by
  constructor
  · exact c6_amended_totality.1 _ (by decide) (by decide)
  · refine c6_amended_totality.2 _ _ ?_ ?_
    · intro d hd
      rw [show d = [("critical_threshold_meters", PyVal.none), ("rainfall_mm_per_hr", .vStr "45.2")] from by injection hd with h; exact h.symm]
      exact ⟨by decide, by decide⟩
    · intro d hd
      rw [show d = [] from by injection hd with h; exact h.symm]
      exact ⟨by decide, by decide⟩

/-- A falsy primary channel (absent or empty record) is never critical
for the arbiter. -/
theorem nem_primary_of_not_truthy {pr : Option PyDict} (h : optTruthy pr = false) :
    nem_primary_is_critical pr = .ok false := by
  cases pr with
  | none => rfl
  | some d =>
    have hd : d.isEmpty = true := by simpa [optTruthy] using h
    simp [nem_primary_is_critical, hd]

/-- A falsy secondary channel (absent or empty record) is never critical
for the arbiter. -/
theorem nem_adversarial_of_not_truthy {ad : Option PyDict} (h : optTruthy ad = false) :
    nem_adversarial_is_critical ad = .ok false := by
  cases ad with
  | none => rfl
  | some d =>
    have hd : d.isEmpty = true := by simpa [optTruthy] using h
    simp [nem_adversarial_is_critical, hd]

/-- C1 counterexample: the claim fixes the secondary-criticality rule to
a case-sensitive membership `alt_status ∈ {"SEVERE_FLOOD_WARNING",
"CRITICAL"}`.  With a critical primary (the Bulacan record) and a
secondary record whose status is the lower-case string `"critical"`
(inundation 0.1 < 0.5, rescue requests 0 < 2 — not critical under the
claim's rule), the claim demands BLOCK, but `nemesis_ai` upper-cases the
tag before the membership test and APPROVEs. -/
theorem c1_counterexample :
    nemesis_core (some bulacanRecord)
      (some [("alt_flood_status", .vStr "critical"),
             ("estimated_inundation_meters", .vFloat r0_1),
             ("rescue_requests_count", .vInt 0)])
      = .ok ⟨"APPROVE", "Both primary and adversarial sources indicate flood danger.",
             some (true, true)⟩
    ∧ ¬ (("critical" : String) = "SEVERE_FLOOD_WARNING" ∨ ("critical" : String) = "CRITICAL"
         ∨ r0_5 ≤ r0_1 ∨ (2 : ℤ) ≤ 0) := by
  constructor <;> decide

/-- C1 amended: the arbiter decides APPROVE exactly when both channels
are critical (BLOCK in the other three combinations), where secondary
criticality holds iff the upper-cased `str(alt_status)` is
`"SEVERE_FLOOD_WARNING"` or `"CRITICAL"` (the membership test is
case-insensitive, which the claim's case-sensitive set omits), or the
inundation depth is >= 0.5, or the rescue-request count is >= 2; an
absent channel record evaluates that channel's criticality as false. -/
theorem c1_arbiter_truth_table_amended :
    (∀ (pr ad : Option PyDict) (p a : Bool),
       nem_primary_is_critical pr = .ok p →
       nem_adversarial_is_critical ad = .ok a →
       ∃ v, nemesis_core pr ad = .ok v ∧
         (v.decision = "APPROVE" ↔ (p = true ∧ a = true)))
    ∧ (∀ (d : PyDict) (s : String) (m : ℚ) (r : ℤ),
       List.lookup "alt_flood_status" d = some (.vStr s) →
       List.lookup "estimated_inundation_meters" d = some (.vFloat m) →
       List.lookup "rescue_requests_count" d = some (.vInt r) →
       nem_adversarial_is_critical (some d) =
         .ok (decide (strUpper s = "SEVERE_FLOOD_WARNING" ∨ strUpper s = "CRITICAL"
              ∨ r0_5 ≤ m ∨ (2 : ℤ) ≤ r)))
    ∧ nem_primary_is_critical Option.none = .ok false
    ∧ nem_adversarial_is_critical Option.none = .ok false := by
  refine ⟨?_, ?_, rfl, rfl⟩
  · intro pr ad p a hp ha
    by_cases hdata : (!optTruthy pr && !optTruthy ad) = true
    · have hpr : optTruthy pr = false := by
        rcases Bool.and_eq_true_iff.mp hdata with ⟨h1, _⟩
        simpa using h1
      have hpf : p = false := by
        have := nem_primary_of_not_truthy hpr
        rw [hp] at this
        exact (Except.ok.injEq _ _).mp this
      refine ⟨⟨"BLOCK", "No reliable data in either source.", Option.none⟩,
        by simp [nemesis_core, hdata], ?_⟩
      simp [hpf]
    · cases p <;> cases a <;>
        simp [nemesis_core, hdata, hp, ha]
  · intro d s m r hs hm hr
    have hd : d.isEmpty = false := isEmpty_false_of_lookup hs
    by_cases h1 : strUpper s = "SEVERE_FLOOD_WARNING"
    · simp [nem_adversarial_is_critical, hd, dictGet_of_lookup hs, pyStr, h1]
    · by_cases h2 : strUpper s = "CRITICAL"
      · simp [nem_adversarial_is_critical, hd, dictGet_of_lookup hs, pyStr, h1, h2]
      · by_cases h3 : r0_5 ≤ m
        · simp [nem_adversarial_is_critical, hd, dictGet_of_lookup hs,
            dictGet_of_lookup hm, pyStr, h1, h2, pyFloat_pyOr_vFloat_zero, h3]
        · simp [nem_adversarial_is_critical, hd, dictGet_of_lookup hs,
            dictGet_of_lookup hm, dictGet_of_lookup hr, pyStr, h1, h2,
            pyFloat_pyOr_vFloat_zero, pyInt_pyOr_vInt_zero, h3]

/-- C1 witness: the truth table applied to the Bulacan channel pair
(both critical) yields a verdict whose decision is APPROVE. -/
theorem c1_witness :
    ∃ v, nemesis_core (some bulacanRecord) (some bulacanAdv) = .ok v ∧
      (v.decision = "APPROVE" ↔ (true = true ∧ true = true)) :=
  c1_arbiter_truth_table_amended.1 (some bulacanRecord) (some bulacanAdv) true true
    (by decide) (by decide)

/-- C7: when neither channel has a (nonempty) record, the arbiter blocks
with the dedicated reason "No reliable data in either source.", which is
a different reason string from the "Both sources indicate low risk for
immediate auto-dispatch." returned when records are present but neither
is critical, even though both cases reduce to the boolean pair
(false, false). -/
theorem c7_no_data_distinct_from_low_risk :
    (∀ pr ad : Option PyDict, optTruthy pr = false → optTruthy ad = false →
       nemesis_core pr ad =
         .ok ⟨"BLOCK", "No reliable data in either source.", Option.none⟩)
    ∧ (∀ pr ad : Option PyDict,
       optTruthy pr = true ∨ optTruthy ad = true →
       nem_primary_is_critical pr = .ok false →
       nem_adversarial_is_critical ad = .ok false →
       nemesis_core pr ad =
         .ok ⟨"BLOCK", "Both sources indicate low risk for immediate auto-dispatch.",
              some (false, false)⟩)
    ∧ ("No reliable data in either source."
        ≠ "Both sources indicate low risk for immediate auto-dispatch.") := by
  refine ⟨?_, ?_, by decide⟩
  · intro pr ad h1 h2
    simp [nemesis_core, h1, h2]
  · intro pr ad hsome hp ha
    have hdata : (!optTruthy pr && !optTruthy ad) = false := by
      rcases hsome with h | h <;> simp [h]
    simp [nemesis_core, hdata, hp, ha]

/-- C7 witness: the two BLOCK cases on concrete inputs — absent channels
versus the non-critical Marikina records. -/
theorem c7_witness :
    nemesis_core Option.none Option.none =
      .ok ⟨"BLOCK", "No reliable data in either source.", Option.none⟩
    ∧ nemesis_core (some marikinaRecord) (some marikinaAdv) =
      .ok ⟨"BLOCK", "Both sources indicate low risk for immediate auto-dispatch.",
           some (false, false)⟩ :=
  ⟨c7_no_data_distinct_from_low_risk.1 Option.none Option.none rfl rfl,
   c7_no_data_distinct_from_low_risk.2.1 (some marikinaRecord) (some marikinaAdv)
     (Or.inl (by decide)) (by decide) (by decide)⟩

/-- C2: `dispatch_emergency_alert` authorizes (returns `ok = true`) iff
both gates pass — the primary record of the resolved location is
classified critical and the cross-validator decides APPROVE.  When the
cross-validator's decision is not APPROVE the denial carries the
cross-validator's own reason string, and an authorization carries the
arbiter's decision in the payload for audit. -/
theorem c2_dispatch_gates :
    ∀ (envT advT : PyMap) (cK : List String) (area plan : String) (resp : DispatchResponse),
      dispatch_emergency_alert envT advT cK area plan = .ok resp →
      (resp.ok = true ↔
        (is_sensor_critical
            ((mapGet envT (infer_from (inferKeys envT advT cK) area)).getD []) = .ok true
         ∧ ∃ v, nemesis_ai envT advT (infer_from (inferKeys envT advT cK) area) = .ok v
             ∧ v.decision = "APPROVE"))
      ∧ (∀ v, is_sensor_critical
            ((mapGet envT (infer_from (inferKeys envT advT cK) area)).getD []) = .ok true →
          nemesis_ai envT advT (infer_from (inferKeys envT advT cK) area) = .ok v →
          v.decision ≠ "APPROVE" →
          resp = ⟨false, "SAFETY BLOCK: Nemesis AI blocked auto-dispatch.",
                  .nemesisBlock (infer_from (inferKeys envT advT cK) area) v.reason v.decision⟩)
      ∧ (resp.ok = true →
          resp.payload = .dispatched (infer_from (inferKeys envT advT cK) area) plan
            "Evacuation SMS broadcasted + resources coordinated (mock)." "APPROVE") := by
  intro envT advT cK area plan resp h
  simp only [dispatch_emergency_alert, dispatch_core] at h
  cases hcrit : is_sensor_critical
      ((mapGet envT (infer_from (inferKeys envT advT cK) area)).getD []) with
  | error e => rw [hcrit] at h; simp at h
  | ok crit =>
    rw [hcrit] at h
    cases crit with
    | false =>
      simp at h
      subst h
      refine ⟨?_, ?_, ?_⟩
      · constructor
        · intro hok; simp at hok
        · rintro ⟨hcr, -⟩
          simp at hcr
      · intro v hcr hv hne
        simp at hcr
      · intro hok; simp at hok
    | true =>
      simp only [Bool.not_true, Bool.false_eq_true, if_false] at h
      cases hnem : nemesis_ai envT advT (infer_from (inferKeys envT advT cK) area) with
      | error e => rw [hnem] at h; simp at h
      | ok v =>
        rw [hnem] at h
        by_cases hdec : v.decision = "APPROVE"
        · simp [hdec] at h
          subst h
          refine ⟨?_, ?_, ?_⟩
          · constructor
            · intro _
              exact ⟨rfl, v, rfl, hdec⟩
            · intro _
              rfl
          · intro v' hcr hv' hne
            injection hv' with hv'
            subst hv'
            exact absurd hdec hne
          · intro hok
            simp [hdec]
        · simp [hdec] at h
          subst h
          refine ⟨?_, ?_, ?_⟩
          · constructor
            · intro hok; simp at hok
            · rintro ⟨-, v', hv', hdec'⟩
              injection hv' with hv'
              subst hv'
              exact absurd hdec' hdec
          · intro v' hcr hv' hne
            injection hv' with hv'
            subst hv'
            rfl
          · intro hok; simp at hok

/-- C2 witness: the dispatch of Bulacan succeeds, and the theorem's
biconditional holds on it: both gates pass. -/
theorem c2_witness :
    (⟨true, "SUCCESS: Evacuation alert dispatched.",
      .dispatched "Bulacan" "Evacuate now"
        "Evacuation SMS broadcasted + resources coordinated (mock)." "APPROVE"⟩
      : DispatchResponse).ok = true ↔
    (is_sensor_critical
        ((mapGet MOCK_ENVIRONMENTAL_DATA
          (infer_from (inferKeys MOCK_ENVIRONMENTAL_DATA ADVERSARIAL_MOCK_DATA
            LOCATION_COORDS_KEYS) "Bulacan")).getD []) = .ok true
     ∧ ∃ v, nemesis_ai MOCK_ENVIRONMENTAL_DATA ADVERSARIAL_MOCK_DATA
         (infer_from (inferKeys MOCK_ENVIRONMENTAL_DATA ADVERSARIAL_MOCK_DATA
           LOCATION_COORDS_KEYS) "Bulacan") = .ok v
         ∧ v.decision = "APPROVE") :=
  (c2_dispatch_gates MOCK_ENVIRONMENTAL_DATA ADVERSARIAL_MOCK_DATA LOCATION_COORDS_KEYS
    "Bulacan" "Evacuate now" _ (by decide)).1

/-- C3: when the primary record of the resolved location is classified
not critical, the dispatch gate denies immediately with the fixed
sensor-block reason (the constant "Dispatch blocked: sensors are not
critical."), and the cross-validator is never consulted: the result is
the same for every arbiter function, hence independent of the
secondary channel's data. -/
theorem c3_sensor_gate_short_circuit :
    ∀ (envT : PyMap) (keys : List String)
      (arb arb2 : String → Except String NemesisVerdict) (area plan : String),
      is_sensor_critical ((mapGet envT (infer_from keys area)).getD []) = .ok false →
      dispatch_core envT keys arb area plan =
        .ok ⟨false, "SAFETY BLOCK: No evacuation alert sent.",
             .sensorBlock (infer_from keys area)
               "Dispatch blocked: sensors are not critical."
               (dictGet ((mapGet envT (infer_from keys area)).getD [])
                 "status" (.vStr "UNKNOWN"))⟩
      ∧ dispatch_core envT keys arb area plan = dispatch_core envT keys arb2 area plan := by
  intro envT keys arb arb2 area plan hcrit
  constructor
  · simp [dispatch_core, hcrit]
  · simp [dispatch_core, hcrit]

/-- C3 witness: dispatch for Marikina (not critical) yields the sensor
block, and replacing the real `nemesis_ai` by a stub arbiter that always
approves changes nothing. -/
theorem c3_witness :
    dispatch_core MOCK_ENVIRONMENTAL_DATA
        (inferKeys MOCK_ENVIRONMENTAL_DATA ADVERSARIAL_MOCK_DATA LOCATION_COORDS_KEYS)
        (nemesis_ai MOCK_ENVIRONMENTAL_DATA ADVERSARIAL_MOCK_DATA) "Marikina" "Evacuate" =
      .ok ⟨false, "SAFETY BLOCK: No evacuation alert sent.",
           .sensorBlock "Marikina" "Dispatch blocked: sensors are not critical."
             (.vStr "NORMAL")⟩
    ∧ dispatch_core MOCK_ENVIRONMENTAL_DATA
        (inferKeys MOCK_ENVIRONMENTAL_DATA ADVERSARIAL_MOCK_DATA LOCATION_COORDS_KEYS)
        (nemesis_ai MOCK_ENVIRONMENTAL_DATA ADVERSARIAL_MOCK_DATA) "Marikina" "Evacuate" =
      dispatch_core MOCK_ENVIRONMENTAL_DATA
        (inferKeys MOCK_ENVIRONMENTAL_DATA ADVERSARIAL_MOCK_DATA LOCATION_COORDS_KEYS)
        (fun _ => .ok ⟨"APPROVE", "stub", Option.none⟩) "Marikina" "Evacuate" := by
  have h := c3_sensor_gate_short_circuit MOCK_ENVIRONMENTAL_DATA
    (inferKeys MOCK_ENVIRONMENTAL_DATA ADVERSARIAL_MOCK_DATA LOCATION_COORDS_KEYS)
    (nemesis_ai MOCK_ENVIRONMENTAL_DATA ADVERSARIAL_MOCK_DATA)
    (fun _ => .ok ⟨"APPROVE", "stub", Option.none⟩) "Marikina" "Evacuate" (by decide)
  exact ⟨by rw [h.1]; decide, h.2⟩

/-- C9: the claim (from the spec's InvocationMisuse class) says calls
with an empty location or empty action plan surface a reportable
programming error, distinct from evidentiary denials.  The code contains
no such validation: an empty location resolves verbatim, finds no record
and produces the ordinary evidentiary sensor-block denial, and an empty
action plan on a critical location is simply accepted and dispatched
successfully with an empty plan. -/
theorem c9_empty_inputs_not_rejected :
    dispatch_emergency_alert MOCK_ENVIRONMENTAL_DATA ADVERSARIAL_MOCK_DATA
      LOCATION_COORDS_KEYS "" "Evacuate" =
      .ok ⟨false, "SAFETY BLOCK: No evacuation alert sent.",
           .sensorBlock "" "Dispatch blocked: sensors are not critical." (.vStr "UNKNOWN")⟩
    ∧ dispatch_emergency_alert MOCK_ENVIRONMENTAL_DATA ADVERSARIAL_MOCK_DATA
      LOCATION_COORDS_KEYS "Bulacan" "" =
      .ok ⟨true, "SUCCESS: Evacuation alert dispatched.",
           .dispatched "Bulacan" ""
             "Evacuation SMS broadcasted + resources coordinated (mock)." "APPROVE"⟩ := by
  constructor <;> decide

/-- The concrete key list `_infer_location_from_text` iterates over in
this program evaluates to Bulacan/Marikina repeated per table. -/
theorem program_inferKeys_eq :
    inferKeys MOCK_ENVIRONMENTAL_DATA ADVERSARIAL_MOCK_DATA LOCATION_COORDS_KEYS
      = ["Bulacan", "Marikina", "Bulacan", "Marikina", "Bulacan", "Marikina"] := by
  decide

/-- Location resolution over this program's tables is idempotent: the
resolved key resolves to itself. -/
theorem infer_location_program_idem (s : String) :
    infer_location MOCK_ENVIRONMENTAL_DATA ADVERSARIAL_MOCK_DATA LOCATION_COORDS_KEYS
      (infer_location MOCK_ENVIRONMENTAL_DATA ADVERSARIAL_MOCK_DATA LOCATION_COORDS_KEYS s)
    = infer_location MOCK_ENVIRONMENTAL_DATA ADVERSARIAL_MOCK_DATA LOCATION_COORDS_KEYS s := by
  simp only [infer_location]
  by_cases hs : s.isEmpty = true
  · have h1 : infer_from (inferKeys MOCK_ENVIRONMENTAL_DATA ADVERSARIAL_MOCK_DATA
        LOCATION_COORDS_KEYS) s = s := by simp [infer_from, hs]
    rw [h1]
    exact h1
  · cases hfind : (inferKeys MOCK_ENVIRONMENTAL_DATA ADVERSARIAL_MOCK_DATA
        LOCATION_COORDS_KEYS).find? (fun k => strContains (strLower k) (strLower s)) with
    | none =>
      have h1 : infer_from (inferKeys MOCK_ENVIRONMENTAL_DATA ADVERSARIAL_MOCK_DATA
          LOCATION_COORDS_KEYS) s = s := by simp [infer_from, hs, hfind]
      rw [h1]
      exact h1
    | some k =>
      have h1 : infer_from (inferKeys MOCK_ENVIRONMENTAL_DATA ADVERSARIAL_MOCK_DATA
          LOCATION_COORDS_KEYS) s = k := by simp [infer_from, hs, hfind]
      rw [h1]
      have hk : k ∈ inferKeys MOCK_ENVIRONMENTAL_DATA ADVERSARIAL_MOCK_DATA
          LOCATION_COORDS_KEYS := List.mem_of_find?_eq_some hfind
      rw [program_inferKeys_eq] at hk
      fin_cases hk <;> decide

/-- C10 counterexample: the input "marikina bulacan" contains the known
key "Marikina" as a case-insensitive substring, yet the dispatch tool
does not behave as if invoked with "Marikina" (which is denied at the
sensor gate): it resolves to "Bulacan" — the first key in table
iteration order that matches — and dispatches successfully with area
"Bulacan". -/
theorem c10_counterexample :
    strContains "marikina" (strLower "marikina bulacan") = true
    ∧ dispatch_emergency_alert MOCK_ENVIRONMENTAL_DATA ADVERSARIAL_MOCK_DATA
        LOCATION_COORDS_KEYS "marikina bulacan" "Evacuate"
      = .ok ⟨true, "SUCCESS: Evacuation alert dispatched.",
             .dispatched "Bulacan" "Evacuate"
               "Evacuation SMS broadcasted + resources coordinated (mock)." "APPROVE"⟩
    ∧ dispatch_emergency_alert MOCK_ENVIRONMENTAL_DATA ADVERSARIAL_MOCK_DATA
        LOCATION_COORDS_KEYS "Marikina" "Evacuate"
      = .ok ⟨false, "SAFETY BLOCK: No evacuation alert sent.",
             .sensorBlock "Marikina" "Dispatch blocked: sensors are not critical."
               (.vStr "NORMAL")⟩ := by
  refine ⟨by decide, by decide, by decide⟩

/-- C10 amended: `dispatch_emergency_alert` resolves its location by
case-insensitive substring matching before gating, to the FIRST key in
table iteration order (Bulacan before Marikina) occurring in the input:
dispatch behaves exactly as if invoked with the resolved key, reports
the resolved key as the area of its response, resolves inputs matching
no known key (including the empty string) verbatim, resolves any
nonempty input containing "bulacan" to Bulacan, and any nonempty input
containing "marikina" but not "bulacan" to Marikina. -/
theorem c10_amended_location_resolution :
    (∀ s p : String,
       dispatch_emergency_alert MOCK_ENVIRONMENTAL_DATA ADVERSARIAL_MOCK_DATA
         LOCATION_COORDS_KEYS s p
       = dispatch_emergency_alert MOCK_ENVIRONMENTAL_DATA ADVERSARIAL_MOCK_DATA
           LOCATION_COORDS_KEYS
           (infer_location MOCK_ENVIRONMENTAL_DATA ADVERSARIAL_MOCK_DATA
             LOCATION_COORDS_KEYS s) p)
    ∧ (∀ (s p : String) (resp : DispatchResponse),
       dispatch_emergency_alert MOCK_ENVIRONMENTAL_DATA ADVERSARIAL_MOCK_DATA
         LOCATION_COORDS_KEYS s p = .ok resp →
       resp.payload.area = infer_location MOCK_ENVIRONMENTAL_DATA ADVERSARIAL_MOCK_DATA
         LOCATION_COORDS_KEYS s)
    ∧ (infer_location MOCK_ENVIRONMENTAL_DATA ADVERSARIAL_MOCK_DATA
        LOCATION_COORDS_KEYS "" = "")
    ∧ (∀ s : String,
       (∀ k ∈ inferKeys MOCK_ENVIRONMENTAL_DATA ADVERSARIAL_MOCK_DATA LOCATION_COORDS_KEYS,
          strContains (strLower k) (strLower s) = false) →
       infer_location MOCK_ENVIRONMENTAL_DATA ADVERSARIAL_MOCK_DATA
         LOCATION_COORDS_KEYS s = s)
    ∧ (∀ s : String, s.isEmpty = false →
       strContains "bulacan" (strLower s) = true →
       infer_location MOCK_ENVIRONMENTAL_DATA ADVERSARIAL_MOCK_DATA
         LOCATION_COORDS_KEYS s = "Bulacan")
    ∧ (∀ s : String, s.isEmpty = false →
       strContains "bulacan" (strLower s) = false →
       strContains "marikina" (strLower s) = true →
       infer_location MOCK_ENVIRONMENTAL_DATA ADVERSARIAL_MOCK_DATA
         LOCATION_COORDS_KEYS s = "Marikina") := by
  have hlb : strLower "Bulacan" = "bulacan" := by decide
  have hlm : strLower "Marikina" = "marikina" := by decide
  refine ⟨?_, ?_, by decide, ?_, ?_, ?_⟩
  · intro s p
    simp only [dispatch_emergency_alert, dispatch_core]
    rw [show infer_from (inferKeys MOCK_ENVIRONMENTAL_DATA ADVERSARIAL_MOCK_DATA
        LOCATION_COORDS_KEYS)
        (infer_location MOCK_ENVIRONMENTAL_DATA ADVERSARIAL_MOCK_DATA
          LOCATION_COORDS_KEYS s)
      = infer_from (inferKeys MOCK_ENVIRONMENTAL_DATA ADVERSARIAL_MOCK_DATA
          LOCATION_COORDS_KEYS) s from infer_location_program_idem s]
  · intro s p resp h
    simp only [dispatch_emergency_alert, dispatch_core] at h
    cases hcrit : is_sensor_critical ((mapGet MOCK_ENVIRONMENTAL_DATA
        (infer_from (inferKeys MOCK_ENVIRONMENTAL_DATA ADVERSARIAL_MOCK_DATA
          LOCATION_COORDS_KEYS) s)).getD []) with
    | error e => rw [hcrit] at h; simp at h
    | ok crit =>
      rw [hcrit] at h
      cases crit with
      | false =>
        simp at h
        subst h
        rfl
      | true =>
        simp only [Bool.not_true, Bool.false_eq_true, if_false] at h
        cases hnem : nemesis_ai MOCK_ENVIRONMENTAL_DATA ADVERSARIAL_MOCK_DATA
            (infer_from (inferKeys MOCK_ENVIRONMENTAL_DATA ADVERSARIAL_MOCK_DATA
              LOCATION_COORDS_KEYS) s) with
        | error e => rw [hnem] at h; simp at h
        | ok v =>
          rw [hnem] at h
          by_cases hdec : v.decision = "APPROVE"
          · simp [hdec] at h
            subst h
            rfl
          · simp [hdec] at h
            subst h
            rfl
  · intro s hall
    by_cases hs : s.isEmpty = true
    · simp [infer_location, infer_from, hs]
    · have hb := hall "Bulacan" (by rw [program_inferKeys_eq]; simp)
      have hm := hall "Marikina" (by rw [program_inferKeys_eq]; simp)
      simp [infer_location, infer_from, hs, program_inferKeys_eq, List.find?, hb, hm]
  · intro s hs hb
    simp [infer_location, infer_from, hs, program_inferKeys_eq, List.find?, hlb, hb]
  · intro s hs hb hm
    simp [infer_location, infer_from, hs, program_inferKeys_eq, List.find?, hlb, hlm, hb, hm]

/-- C10 witness: a nonempty free-text input containing "marikina" (in
any case) and not "bulacan" resolves to the key "Marikina". -/
theorem c10_witness :
    infer_location MOCK_ENVIRONMENTAL_DATA ADVERSARIAL_MOCK_DATA LOCATION_COORDS_KEYS
      "Flood status in MARIKINA please" = "Marikina" :=
  c10_amended_location_resolution.2.2.2.2.2 "Flood status in MARIKINA please"
    (by decide) (by decide) (by decide)

end FlashGuard
